import Mathlib

/-!
Verification development for a Docker-based UniFi network-controller
lifecycle tool (`controllerlib/docker.py` and `controllerlib/action.py`).

The runtime client (`docker.py`) is embedded as pure functions over an
explicit `World` describing the external Docker state together with the
success/failure of each subprocess invocation.  Each call returns the list
of CLI invocations it issued (the trace) together with either a result or
a `DockerErr` (the model of the `DockerError` exception).

The lifecycle operations (`action.py`) are embedded on top of that; a
`FatalError` raised by an operation is modelled by the `Fatal` inductive,
whose `message` function reproduces the exact f-strings of the source.
An operation's outcome is `Except OpError Unit` where `OpError.docker`
marks a `DockerError` that escaped the operation uncaught.
-/

/-- Record yielded per image by `docker.image_list` (keyed by `repository:tag`). -/
structure ImageRec where
  id : String
  repository : String
  size : String
  tag : String
deriving DecidableEq, Repr

/-- Record yielded per container by `docker.container_list` (keyed by name). -/
structure ContainerRec where
  exit_code : Option Nat
  id : String
  image : String
  running : Bool
  status : String
deriving DecidableEq, Repr

/-- Record yielded per volume by `docker.volume_list` (keyed by name). -/
structure VolumeRec where
  mount_point : String
deriving DecidableEq, Repr

/-- The keyword arguments of `docker.container_run`, with the source's defaults. -/
structure RunSpec where
  image_repository : String
  image_tag : String := "latest"
  bind_list : List (String × String) := []
  command_arg_list : List String := []
  detach : Bool := false
  name : Option String := none
  network_host : Bool := false
  publish_list : List (Nat × Nat) := []
  remove_on_exit : Bool := false
  volume_list : List (String × String) := []
deriving DecidableEq, Repr

/-- One Docker CLI invocation issued by the runtime client (trace element). -/
inductive DockerCall where
  | imageList
  | containerList
  | volumeList
  | imagePull (repository : String) (tag : String)
  | volumeCreate (name : String)
  | volumeDelete (name : String)
  | containerRun (spec : RunSpec)
  | containerStop (name : String)
deriving DecidableEq, Repr

/-- The `docker.DockerError` exception; one constructor per message string in
`docker.py`. -/
inductive DockerErr where
  | unableToLocateCLI
  | unableToListImages
  | unableToListContainers
  | unableToListVolumes
  | unableToPullImage
  | unableToCreateVolume
  | unableToDeleteVolume
  | unableToRunImage
  | unableToStopContainer
deriving DecidableEq, Repr

/-- Message carried by each `DockerError`, exactly as raised in `docker.py`. -/
def DockerErr.message : DockerErr → String
  | .unableToLocateCLI => "unable to locate Docker CLI"
  | .unableToListImages => "unable to list images"
  | .unableToListContainers => "unable to list containers"
  | .unableToListVolumes => "unable to list volumes"
  | .unableToPullImage => "unable to pull image"
  | .unableToCreateVolume => "unable to create volume"
  | .unableToDeleteVolume => "unable to delete volume"
  | .unableToRunImage => "unable to run image"
  | .unableToStopContainer => "unable to stop container"

/-- Return value of `docker.container_run`: `Union[bool, str]` in the source,
either a captured container id line or the `False` "no id" sentinel. -/
inductive RunResult where
  | id (line : String)
  | noId
deriving DecidableEq, Repr

/-- External Docker/universe state observed by one lifecycle operation: the
current inventories, whether the CLI binary can be located, and whether each
kind of subprocess invocation exits zero.  `container_run_stdout` is the raw
standard output of the `docker run` subprocess; `uid`/`gid` model
`os.getuid()`/`os.getgid()`. -/
structure World where
  cli_found : Bool
  images : List (String × ImageRec)
  containers : List (String × ContainerRec)
  volumes : List (String × VolumeRec)
  image_list_ok : Bool
  container_list_ok : Bool
  volume_list_ok : Bool
  image_pull_ok : Bool
  volume_create_ok : Bool
  volume_delete_ok : Bool
  container_run_ok : Bool
  container_run_stdout : String
  container_stop_ok : Bool
  uid : Nat
  gid : Nat

/-- Membership test of Python's `key in dict(pair_sequence)`: some entry of the
sequence carries the key. -/
def dict_contains (l : List (String × α)) (k : String) : Bool :=
  l.any (fun p => p.1 == k)

/-- Lookup of Python's `dict(pair_sequence)[key]`: later pairs overwrite
earlier ones, so the LAST entry with the key wins. -/
def dict_get (l : List (String × α)) (k : String) : Option α :=
  (l.reverse.find? (fun p => p.1 == k)).map (fun p => p.2)

/-- The key list of Python's `dict(pair_sequence).keys()`, up to duplicate
collapse (only membership is ever used by the source). -/
def dict_keys (l : List (String × α)) : List String :=
  l.map (fun p => p.1)

/-- Python `str.rstrip()` over the ASCII whitespace the subprocess output can
contain. -/
def py_rstrip (s : String) : String :=
  s.dropRightWhile Char.isWhitespace

/-- Line splitting of `docker._RunCommandResult`: strip trailing whitespace,
split on newlines; a sole empty line collapses to the empty list. -/
def split_output (output : String) : List String :=
  let line_list := (py_rstrip output).splitOn "\n"
  match line_list with
  | [s] => if s = "" then [] else line_list
  | _ => line_list

namespace Docker

/-- `docker.image_list`: emits one `docker images` invocation and yields the
image inventory, or raises `DockerError`.  When the CLI binary cannot be
located, `_cli_exists` raises before any invocation is issued. -/
def image_list (w : World) :
    List DockerCall × Except DockerErr (List (String × ImageRec)) :=
  if w.cli_found then
    ([.imageList],
      if w.image_list_ok then .ok w.images else .error .unableToListImages)
  else ([], .error .unableToLocateCLI)

/-- `docker.container_list`: emits one `docker ps --all` invocation and yields
the container inventory, or raises `DockerError`. -/
def container_list (w : World) :
    List DockerCall × Except DockerErr (List (String × ContainerRec)) :=
  if w.cli_found then
    ([.containerList],
      if w.container_list_ok then .ok w.containers
      else .error .unableToListContainers)
  else ([], .error .unableToLocateCLI)

/-- `docker.volume_list`: emits one `docker volume ls` invocation and yields
the volume inventory, or raises `DockerError`. -/
def volume_list (w : World) :
    List DockerCall × Except DockerErr (List (String × VolumeRec)) :=
  if w.cli_found then
    ([.volumeList],
      if w.volume_list_ok then .ok w.volumes else .error .unableToListVolumes)
  else ([], .error .unableToLocateCLI)

/-- `docker.image_pull`: emits one `docker pull` invocation; `DockerError` on
non-zero exit. -/
def image_pull (w : World) (repository : String) (tag : String) :
    List DockerCall × Except DockerErr Unit :=
  if w.cli_found then
    ([.imagePull repository tag],
      if w.image_pull_ok then .ok () else .error .unableToPullImage)
  else ([], .error .unableToLocateCLI)

/-- `docker.volume_create`: emits one `docker volume create` invocation;
`DockerError` on non-zero exit. -/
def volume_create (w : World) (name : String) :
    List DockerCall × Except DockerErr Unit :=
  if w.cli_found then
    ([.volumeCreate name],
      if w.volume_create_ok then .ok () else .error .unableToCreateVolume)
  else ([], .error .unableToLocateCLI)

/-- `docker.volume_delete`: emits one `docker volume rm` invocation;
`DockerError` on non-zero exit. -/
def volume_delete (w : World) (name : String) :
    List DockerCall × Except DockerErr Unit :=
  if w.cli_found then
    ([.volumeDelete name],
      if w.volume_delete_ok then .ok () else .error .unableToDeleteVolume)
  else ([], .error .unableToLocateCLI)

/-- `docker.container_run`: emits one `docker run` invocation built from the
spec; `DockerError` on non-zero exit; on exit zero, returns the single line of
standard output as a container id when exactly one line was produced,
otherwise the "no id" sentinel. -/
def container_run (w : World) (spec : RunSpec) :
    List DockerCall × Except DockerErr RunResult :=
  if w.cli_found then
    ([.containerRun spec],
      if w.container_run_ok then
        match split_output w.container_run_stdout with
        | [line] => .ok (.id line)
        | _ => .ok .noId
      else .error .unableToRunImage)
  else ([], .error .unableToLocateCLI)

/-- `docker.container_stop`: emits one `docker stop` invocation; `DockerError`
on non-zero exit. -/
def container_stop (w : World) (name : String) :
    List DockerCall × Except DockerErr Unit :=
  if w.cli_found then
    ([.containerStop name],
      if w.container_stop_ok then .ok () else .error .unableToStopContainer)
  else ([], .error .unableToLocateCLI)

end Docker

namespace Action

def CONTROLLER_REPOSITORY_NAME : String := "magnetikonline/unifi-network-controller"

def CONTROLLER_PORT_COMMS : Nat := 8080

def CONTROLLER_PORT_GUI : Nat := 8443

def CONTROLLER_BASE_DIR : String := "/usr/lib/unifi"

def BACKUP_REPOSITORY_NAME : String := "alpine"

def BACKUP_RESTORE_BACKUP_PATH : String := "/backup"

def BACKUP_RESTORE_VOLUME_MOUNT_PATH : String := "/data"

def BACKUP_ARCHIVE_KEY_FILE_LIST : List String :=
  ["./db/version", "./db/WiredTiger", "./firmware.json", "./system.properties"]

/-- The `action.FatalError` exception; one constructor per raise site in
`action.py`, carrying the values interpolated into the message f-string. -/
inductive Fatal where
  | containerAlreadyExists (container_name : String)
  | unableToStartServer
  | containerDoesNotExist (container_name : String)
  | containerNotRunning (container_name : String)
  | unableToStopServer
  | dataVolumeDoesNotExist (volume_name_data : String)
  | unableToBackupDataVolume (volume_name_data : String)
  | containerRunningForRestore (container_name : String)
  | unableToRemoveDataVolume (volume_name_data : String)
  | unableToRestoreDataVolume (volume_name_data : String)
  | unableToOpenArchive (archive_path : String)
  | notATarFile (archive_path : String)
  | notAControllerBackup (archive_path : String)
  | unableToPull (image_name : String)
  | unableToCreateVolume (name : String)
deriving DecidableEq, Repr

/-- Message carried by each `FatalError`, exactly as the f-strings of
`action.py` build it (including the "not does exist" typo of `stop_server`). -/
def Fatal.message : Fatal → String
  | .containerAlreadyExists n => "container [" ++ n ++ "] already exists"
  | .unableToStartServer => "unable to start server"
  | .containerDoesNotExist n => "container [" ++ n ++ "] not does exist"
  | .containerNotRunning n => "container [" ++ n ++ "] not running"
  | .unableToStopServer => "unable to stop server"
  | .dataVolumeDoesNotExist v =>
      "data volume [" ++ v ++ "] does not exist for backup"
  | .unableToBackupDataVolume v => "unable to backup data volume [" ++ v ++ "]"
  | .containerRunningForRestore n =>
      "container [" ++ n ++ "] currently running, " ++
        "associated data volume must not be in use for restore"
  | .unableToRemoveDataVolume v =>
      "unable to remove existing data volume [" ++ v ++ "]"
  | .unableToRestoreDataVolume v =>
      "unable to restore data volume [" ++ v ++ "]"
  | .unableToOpenArchive p => "unable to open archive [" ++ p ++ "]"
  | .notATarFile p => "it appears [" ++ p ++ "] is not a tar file"
  | .notAControllerBackup p =>
      "archive [" ++ p ++ "] doesn't appear to be a controller data backup"
  | .unableToPull i => "unable to pull [" ++ i ++ "]"
  | .unableToCreateVolume n => "unable to create volume [" ++ n ++ "]"

/-- How a lifecycle operation terminates abnormally: a `FatalError` it raised
itself, or a `DockerError` that escaped it uncaught (no `except` covered the
raising call). -/
inductive OpError where
  | fatal (f : Fatal)
  | docker (d : DockerErr)
deriving DecidableEq, Repr

/-- `action._container_server_name`. -/
def _container_server_name (serverPrefix : String) : String :=
  serverPrefix ++ "-server"

/-- `action._volume_data_name`. -/
def _volume_data_name (serverPrefix : String) : String :=
  serverPrefix ++ "-data"

/-- `action._volume_logs_name`. -/
def _volume_logs_name (serverPrefix : String) : String :=
  serverPrefix ++ "-logs"

/-- `action._image_pull` (the `tag` parameter defaults to `"latest"` at the
Python call sites that omit it): consults `docker.image_list` — whose
`DockerError` it does NOT catch — and pulls the image when absent, wrapping
only the `docker.image_pull` failure into a `FatalError`. -/
def _image_pull (w : World) (repository : String) (tag : String) :
    List DockerCall × Except OpError Unit :=
  let image_name := repository ++ ":" ++ tag
  match Docker.image_list w with
  | (t, .error e) => (t, .error (.docker e))
  | (t, .ok images) =>
    if dict_contains images image_name then (t, .ok ())
    else
      match Docker.image_pull w repository tag with
      | (t2, .error _) => (t ++ t2, .error (.fatal (.unableToPull image_name)))
      | (t2, .ok _) => (t ++ t2, .ok ())

/-- `action._volume_create` (the `existing_volume_list` parameter defaults to
the empty set at the Python call site that omits it): issues no create call
when the name is already among the existing volumes; otherwise creates the
volume, wrapping a `DockerError` into a `FatalError`. -/
def _volume_create (w : World) (name : String) (existing_volume_list : List String) :
    List DockerCall × Except OpError Unit :=
  if name ∈ existing_volume_list then ([], .ok ())
  else
    match Docker.volume_create w name with
    | (t, .error _) => (t, .error (.fatal (.unableToCreateVolume name)))
    | (t, .ok _) => (t, .ok ())

/-- `action._backup_archive_cmd`: shell command archiving the data volume and
chowning the produced file to the invoking user. -/
def _backup_archive_cmd (uid gid : Nat) (file : String) : String :=
  "/bin/tar c -zf \"" ++ file ++ "\" -C \"" ++
    BACKUP_RESTORE_VOLUME_MOUNT_PATH ++ "\" . && " ++
    "chown " ++ toString uid ++ ":" ++ toString gid ++ " \"" ++ file ++ "\""

/-- `action._restore_archive_cmd`: shell command extracting the archive inside
the mounted data volume. -/
def _restore_archive_cmd (file : String) : String :=
  "cd \"" ++ BACKUP_RESTORE_VOLUME_MOUNT_PATH ++ "\" && tar x -f \"" ++ file ++ "\""

/-- Outcome of `tarfile.open(archive_path, mode="r")` on the restore archive:
an `OSError`, a `tarfile.TarError` (not a tar file), or a successfully opened
tar whose members carry the listed names. -/
inductive ArchiveOpen where
  | os_error
  | tar_error
  | tar (members : List String)
deriving DecidableEq, Repr

/-- `action._restore_verify_archive`: distinct failures for an unopenable
file and a non-tar file; otherwise counts members whose name is among
`BACKUP_ARCHIVE_KEY_FILE_LIST` and fails when the count is below the list's
length. -/
def _restore_verify_archive (archive_path : String) (opened : ArchiveOpen) :
    Except Fatal Unit :=
  match opened with
  | .os_error => .error (.unableToOpenArchive archive_path)
  | .tar_error => .error (.notATarFile archive_path)
  | .tar members =>
    let key_file_count :=
      (members.filter (fun n => n ∈ BACKUP_ARCHIVE_KEY_FILE_LIST)).length
    if key_file_count < BACKUP_ARCHIVE_KEY_FILE_LIST.length then
      .error (.notAControllerBackup archive_path)
    else .ok ()

/-- `action.start_server`: ensure the controller image, refuse when the server
container already exists, create missing volumes, run the container.  Only
the `docker.container_run` `DockerError` is caught here. -/
def start_server (w : World) (image_tag serverPrefix : String)
    (no_host_network : Bool) : List DockerCall × Except OpError Unit :=
  match _image_pull w CONTROLLER_REPOSITORY_NAME image_tag with
  | (t1, .error e) => (t1, .error e)
  | (t1, .ok _) =>
    let container_name := _container_server_name serverPrefix
    match Docker.container_list w with
    | (t2, .error e) => (t1 ++ t2, .error (.docker e))
    | (t2, .ok containers) =>
      if dict_contains containers container_name then
        (t1 ++ t2, .error (.fatal (.containerAlreadyExists container_name)))
      else
        let volume_name_data := _volume_data_name serverPrefix
        let volume_name_logs := _volume_logs_name serverPrefix
        match Docker.volume_list w with
        | (t3, .error e) => (t1 ++ t2 ++ t3, .error (.docker e))
        | (t3, .ok volumes) =>
          let volume_keys := dict_keys volumes
          match _volume_create w volume_name_data volume_keys with
          | (t4, .error e) => (t1 ++ t2 ++ t3 ++ t4, .error e)
          | (t4, .ok _) =>
            match _volume_create w volume_name_logs volume_keys with
            | (t5, .error e) => (t1 ++ t2 ++ t3 ++ t4 ++ t5, .error e)
            | (t5, .ok _) =>
              match Docker.container_run w
                  { image_repository := CONTROLLER_REPOSITORY_NAME
                    image_tag := image_tag
                    detach := true
                    name := some container_name
                    network_host := !no_host_network
                    publish_list := [(CONTROLLER_PORT_COMMS, CONTROLLER_PORT_COMMS),
                      (CONTROLLER_PORT_GUI, CONTROLLER_PORT_GUI)]
                    remove_on_exit := true
                    volume_list := [(volume_name_data, CONTROLLER_BASE_DIR ++ "/data"),
                      (volume_name_logs, CONTROLLER_BASE_DIR ++ "/logs")] } with
              | (t6, .error _) =>
                  (t1 ++ t2 ++ t3 ++ t4 ++ t5 ++ t6,
                    .error (.fatal .unableToStartServer))
              | (t6, .ok _) => (t1 ++ t2 ++ t3 ++ t4 ++ t5 ++ t6, .ok ())

/-- `action.stop_server`: the derived container must exist (Python `dict`
lookup: last listing entry with the name wins) and be running; only the
`docker.container_stop` `DockerError` is caught here. -/
def stop_server (w : World) (serverPrefix : String) :
    List DockerCall × Except OpError Unit :=
  let container_name := _container_server_name serverPrefix
  match Docker.container_list w with
  | (t, .error e) => (t, .error (.docker e))
  | (t, .ok containers) =>
    match dict_get containers container_name with
    | none => (t, .error (.fatal (.containerDoesNotExist container_name)))
    | some data =>
      if !data.running then
        (t, .error (.fatal (.containerNotRunning container_name)))
      else
        match Docker.container_stop w container_name with
        | (t2, .error _) => (t ++ t2, .error (.fatal .unableToStopServer))
        | (t2, .ok _) => (t ++ t2, .ok ())

/-- `action.backup`: the derived data volume must be present in the volume
listing; then ensure the backup image and run the throwaway archiving
container.  Only the `docker.container_run` `DockerError` is caught here. -/
def backup (w : World) (serverPrefix archive_dir archive_name : String) :
    List DockerCall × Except OpError Unit :=
  let volume_name_data := _volume_data_name serverPrefix
  match Docker.volume_list w with
  | (t, .error e) => (t, .error (.docker e))
  | (t, .ok volumes) =>
    if !dict_contains volumes volume_name_data then
      (t, .error (.fatal (.dataVolumeDoesNotExist volume_name_data)))
    else
      match _image_pull w BACKUP_REPOSITORY_NAME "latest" with
      | (t2, .error e) => (t ++ t2, .error e)
      | (t2, .ok _) =>
        match Docker.container_run w
            { image_repository := BACKUP_REPOSITORY_NAME
              bind_list := [(archive_dir, BACKUP_RESTORE_BACKUP_PATH)]
              command_arg_list := ["/bin/sh", "-c",
                _backup_archive_cmd w.uid w.gid
                  (BACKUP_RESTORE_BACKUP_PATH ++ "/" ++ archive_name)]
              remove_on_exit := true
              volume_list :=
                [(volume_name_data, BACKUP_RESTORE_VOLUME_MOUNT_PATH)] } with
        | (t3, .error _) =>
            (t ++ t2 ++ t3,
              .error (.fatal (.unableToBackupDataVolume volume_name_data)))
        | (t3, .ok _) => (t ++ t2 ++ t3, .ok ())

/-- The volume-removal loop of `action.restore` (lines 141-152): for each
listing entry named like the data volume, delete it, wrapping a `DockerError`
into a `FatalError`. -/
def restore_delete_volume_loop (w : World) (volume_name_data : String) :
    List (String × VolumeRec) → List DockerCall × Except OpError Unit
  | [] => ([], .ok ())
  | (name, _) :: rest =>
    if name == volume_name_data then
      match Docker.volume_delete w volume_name_data with
      | (t, .error _) =>
          (t, .error (.fatal (.unableToRemoveDataVolume volume_name_data)))
      | (t, .ok _) =>
        match restore_delete_volume_loop w volume_name_data rest with
        | (t2, r) => (t ++ t2, r)
    else restore_delete_volume_loop w volume_name_data rest

/-- `action.restore`: verify the archive first, refuse while the derived
container is listed as running, delete any existing data volume, ensure the
backup image, recreate the volume and run the extracting container.  `opened`
is the outcome of `tarfile.open` on `archive_dir/archive_name`. -/
def restore (w : World) (serverPrefix archive_dir archive_name : String)
    (opened : ArchiveOpen) : List DockerCall × Except OpError Unit :=
  let archive_path := archive_dir ++ "/" ++ archive_name
  match _restore_verify_archive archive_path opened with
  | .error f => ([], .error (.fatal f))
  | .ok _ =>
    let container_name := _container_server_name serverPrefix
    match Docker.container_list w with
    | (t1, .error e) => (t1, .error (.docker e))
    | (t1, .ok containers) =>
      if containers.any (fun p => p.1 == container_name && p.2.running) then
        (t1, .error (.fatal (.containerRunningForRestore container_name)))
      else
        let volume_name_data := _volume_data_name serverPrefix
        match Docker.volume_list w with
        | (t2, .error e) => (t1 ++ t2, .error (.docker e))
        | (t2, .ok volumes) =>
          match restore_delete_volume_loop w volume_name_data volumes with
          | (t3, .error e) => (t1 ++ t2 ++ t3, .error e)
          | (t3, .ok _) =>
            match _image_pull w BACKUP_REPOSITORY_NAME "latest" with
            | (t4, .error e) => (t1 ++ t2 ++ t3 ++ t4, .error e)
            | (t4, .ok _) =>
              match _volume_create w volume_name_data [] with
              | (t5, .error e) => (t1 ++ t2 ++ t3 ++ t4 ++ t5, .error e)
              | (t5, .ok _) =>
                match Docker.container_run w
                    { image_repository := BACKUP_REPOSITORY_NAME
                      bind_list := [(archive_dir, BACKUP_RESTORE_BACKUP_PATH)]
                      command_arg_list := ["/bin/sh", "-c",
                        _restore_archive_cmd
                          (BACKUP_RESTORE_BACKUP_PATH ++ "/" ++ archive_name)]
                      remove_on_exit := true
                      volume_list :=
                        [(volume_name_data, BACKUP_RESTORE_VOLUME_MOUNT_PATH)] } with
                | (t6, .error _) =>
                    (t1 ++ t2 ++ t3 ++ t4 ++ t5 ++ t6,
                      .error (.fatal (.unableToRestoreDataVolume volume_name_data)))
                | (t6, .ok _) => (t1 ++ t2 ++ t3 ++ t4 ++ t5 ++ t6, .ok ())

end Action

/-- Whether a CLI invocation references `v` as a Docker VOLUME: created,
deleted, or mounted with `--mount type=volume` by a run. -/
def DockerCall.mentions_volume : DockerCall → String → Bool
  | .volumeCreate n, v => n == v
  | .volumeDelete n, v => n == v
  | .containerRun spec, v => spec.volume_list.any (fun m => m.1 == v)
  | _, _ => false

/-- A concrete healthy world: CLI present, empty inventories, every
subprocess succeeding, `docker run` printing one id line. -/
def sampleWorld : World :=
  { cli_found := true
    images := []
    containers := []
    volumes := []
    image_list_ok := true
    container_list_ok := true
    volume_list_ok := true
    image_pull_ok := true
    volume_create_ok := true
    volume_delete_ok := true
    container_run_ok := true
    container_run_stdout := "0a1b2c3d4e5f\n"
    container_stop_ok := true
    uid := 1000
    gid := 1000 }

/-- `sampleWorld` with a running server container for the default name prefix
and a failing `docker ps --all` subprocess. -/
def listFailWorld : World :=
  { sampleWorld with
    containers := [("unifi-network-controller-server",
      { exit_code := none
        id := "0a1b2c3d4e5f"
        image := "magnetikonline/unifi-network-controller:7.1.61"
        running := true
        status := "Up 2 hours" })]
    container_list_ok := false }

/-- The listing record of a running server container. -/
def upRec : ContainerRec :=
  { exit_code := none
    id := "0a1b2c3d4e5f"
    image := "magnetikonline/unifi-network-controller:7.1.61"
    running := true
    status := "Up 2 hours" }

/-- The listing record of a stopped (exited) server container. -/
def exitedRec : ContainerRec :=
  { exit_code := some 0
    id := "0a1b2c3d4e5f"
    image := "magnetikonline/unifi-network-controller:7.1.61"
    running := false
    status := "Exited (0) 3 minutes ago" }

/-- `sampleWorld` with the default-prefix server container listed as
running. -/
def serverUpWorld : World :=
  { sampleWorld with
    containers := [("unifi-network-controller-server", upRec)] }

/-- `sampleWorld` with the default-prefix server container listed as
stopped. -/
def serverExitedWorld : World :=
  { sampleWorld with
    containers := [("unifi-network-controller-server", exitedRec)] }

theorem string_append_ne {a b : String} (p : String) (h : a ≠ b) :
    p ++ a ≠ p ++ b := by
  intro hc
  apply h
  apply String.ext
  have hd := congrArg String.data hc
  rw [String.data_append, String.data_append] at hd
  exact List.append_cancel_left hd

theorem restore_delete_volume_loop_result (w : World) (v : String)
    (vols : List (String × VolumeRec)) :
    (Action.restore_delete_volume_loop w v vols).2 = .ok () ∨
      (Action.restore_delete_volume_loop w v vols).2 =
        .error (.fatal (.unableToRemoveDataVolume v)) := by
  induction vols with
  | nil => exact Or.inl rfl
  | cons q rest ih =>
    rcases q with ⟨name, rec⟩
    by_cases hn : (name == v) = true
    · rcases hdel : Docker.volume_delete w v with ⟨t, r⟩
      cases r with
      | error e =>
        right
        simp [Action.restore_delete_volume_loop, hn, hdel]
      | ok u =>
        rcases hrest : Action.restore_delete_volume_loop w v rest with ⟨t2, r2⟩
        simp only [Action.restore_delete_volume_loop, hn, if_true, hdel]
        rw [hrest] at ih
        simpa [hrest] using ih
    · simpa [Action.restore_delete_volume_loop, hn] using ih

theorem image_pull_result (w : World) (repository tag : String) :
    (Action._image_pull w repository tag).2 = .ok () ∨
    (∃ d, (Action._image_pull w repository tag).2 = .error (.docker d)) ∨
    (Action._image_pull w repository tag).2 =
      .error (.fatal (.unableToPull (repository ++ ":" ++ tag))) := by
  unfold Action._image_pull
  rcases hil : Docker.image_list w with ⟨t, r⟩
  cases r with
  | error e => right; left; exact ⟨e, by simp [hil]⟩
  | ok images =>
    by_cases hc : dict_contains images (repository ++ ":" ++ tag) = true
    · left; simp [hil, hc]
    · rcases hp : Docker.image_pull w repository tag with ⟨t2, r2⟩
      cases r2 with
      | error e => right; right; simp [hil, hc, hp]
      | ok u => left; simp [hil, hc, hp]

theorem image_pull_result_list_ok (w : World) (repository tag : String)
    (hcli : w.cli_found = true) (hok : w.image_list_ok = true) :
    (Action._image_pull w repository tag).2 = .ok () ∨
    (Action._image_pull w repository tag).2 =
      .error (.fatal (.unableToPull (repository ++ ":" ++ tag))) := by
  unfold Action._image_pull
  simp only [Docker.image_list, hcli, hok, if_true]
  by_cases hc : dict_contains w.images (repository ++ ":" ++ tag) = true
  · left; simp [hc]
  · rcases hp : Docker.image_pull w repository tag with ⟨t2, r2⟩
    cases r2 with
    | error e => right; simp [hc, hp]
    | ok u => left; simp [hc, hp]

theorem image_pull_result_all_ok (w : World) (repository tag : String)
    (hcli : w.cli_found = true) (hok : w.image_list_ok = true)
    (hpull : w.image_pull_ok = true) :
    (Action._image_pull w repository tag).2 = .ok () := by
  unfold Action._image_pull
  simp only [Docker.image_list, hcli, hok, if_true]
  by_cases hc : dict_contains w.images (repository ++ ":" ++ tag) = true
  · simp [hc]
  · simp [hc, Docker.image_pull, hcli, hpull]

theorem image_pull_trace (w : World) (repository tag : String) :
    ∀ c ∈ (Action._image_pull w repository tag).1,
      c = DockerCall.imageList ∨ c = DockerCall.imagePull repository tag := by
  unfold Action._image_pull
  rcases hil : Docker.image_list w with ⟨t, r⟩
  have ht : t = [] ∨ t = [DockerCall.imageList] := by
    unfold Docker.image_list at hil
    by_cases hcli : w.cli_found = true <;> simp [hcli] at hil <;> simp [hil.1.symm]
  have hmem : ∀ c ∈ t, c = DockerCall.imageList := by
    rcases ht with h | h <;> simp [h]
  cases r with
  | error e =>
    simp only [hil]
    intro c hc
    exact Or.inl (hmem c hc)
  | ok images =>
    by_cases hc : dict_contains images (repository ++ ":" ++ tag) = true
    · simp only [hil, hc, if_true]
      intro c hcm
      exact Or.inl (hmem c hcm)
    · rcases hp : Docker.image_pull w repository tag with ⟨t2, r2⟩
      have ht2 : t2 = [] ∨ t2 = [DockerCall.imagePull repository tag] := by
        unfold Docker.image_pull at hp
        by_cases hcli : w.cli_found = true <;> simp [hcli] at hp <;> simp [hp.1.symm]
      have hmem2 : ∀ c ∈ t2, c = DockerCall.imagePull repository tag := by
        rcases ht2 with h | h <;> simp [h]
      cases r2 with
      | error e =>
        simp only [hil, hc, if_false, hp]
        intro c hcm
        rcases List.mem_append.mp hcm with h | h
        · exact Or.inl (hmem c h)
        · exact Or.inr (hmem2 c h)
      | ok u =>
        simp only [hil, hc, if_false, hp]
        intro c hcm
        rcases List.mem_append.mp hcm with h | h
        · exact Or.inl (hmem c h)
        · exact Or.inr (hmem2 c h)

theorem volume_create_result (w : World) (name : String)
    (existing : List String) :
    (Action._volume_create w name existing).2 = .ok () ∨
    (Action._volume_create w name existing).2 =
      .error (.fatal (.unableToCreateVolume name)) := by
  unfold Action._volume_create
  by_cases he : name ∈ existing
  · left; simp [he]
  · rcases hv : Docker.volume_create w name with ⟨t, r⟩
    cases r with
    | error e => right; simp [he, hv]
    | ok u => left; simp [he, hv]

theorem volume_create_result_all_ok (w : World) (name : String)
    (existing : List String) (hcli : w.cli_found = true)
    (hok : w.volume_create_ok = true) :
    (Action._volume_create w name existing).2 = .ok () := by
  unfold Action._volume_create
  by_cases he : name ∈ existing
  · simp [he]
  · simp [he, Docker.volume_create, hcli, hok]


/-- C10: the derived resource names are the prefix followed by `-server`,
`-data` and `-logs` respectively, and for any non-empty prefix the three
names are pairwise distinct. -/
theorem claim_C10_resource_naming (p : String) :
    Action._container_server_name p = p ++ "-server" ∧
    Action._volume_data_name p = p ++ "-data" ∧
    Action._volume_logs_name p = p ++ "-logs" ∧
    (p ≠ "" →
      Action._container_server_name p ≠ Action._volume_data_name p ∧
      Action._container_server_name p ≠ Action._volume_logs_name p ∧
      Action._volume_data_name p ≠ Action._volume_logs_name p) := by
  refine ⟨rfl, rfl, rfl, fun _ => ?_⟩
  unfold Action._container_server_name Action._volume_data_name
    Action._volume_logs_name
  exact ⟨string_append_ne p (by decide), string_append_ne p (by decide),
    string_append_ne p (by decide)⟩

/-- Witness for C10 at the default prefix. -/
theorem claim_C10_resource_naming_witness :
    ("unifi-network-controller" : String) ≠ "" ∧
    (Action._container_server_name "unifi-network-controller" ≠
        Action._volume_data_name "unifi-network-controller" ∧
      Action._container_server_name "unifi-network-controller" ≠
        Action._volume_logs_name "unifi-network-controller" ∧
      Action._volume_data_name "unifi-network-controller" ≠
        Action._volume_logs_name "unifi-network-controller") :=
  ⟨by decide, (claim_C10_resource_naming "unifi-network-controller").2.2.2 (by decide)⟩

/-- C9: when the `docker run` subprocess exits zero, `container_run` returns
the single stdout line as the container id exactly when the decoded output
has one line, and returns the (non-error) "no id" sentinel for any other
line count. -/
theorem claim_C9_container_run_id (w : World) (spec : RunSpec)
    (hcli : w.cli_found = true) (hok : w.container_run_ok = true) :
    (∀ line, (Docker.container_run w spec).2 = .ok (.id line) ↔
        split_output w.container_run_stdout = [line]) ∧
    ((split_output w.container_run_stdout).length ≠ 1 →
      (Docker.container_run w spec).2 = .ok .noId) := by
  have hrun : (Docker.container_run w spec).2 =
      (match split_output w.container_run_stdout with
        | [line] => Except.ok (RunResult.id line)
        | _ => Except.ok RunResult.noId) := by
    simp [Docker.container_run, hcli, hok]
  rcases hs : split_output w.container_run_stdout with _ | ⟨a, _ | ⟨b, rest⟩⟩ <;>
    rw [hs] at hrun <;> constructor <;> simp [hrun, hs]

/-- Witness for C9: `sampleWorld`'s run subprocess prints exactly one line. -/
theorem claim_C9_container_run_id_witness :
    sampleWorld.cli_found = true ∧ sampleWorld.container_run_ok = true ∧
    ((Docker.container_run sampleWorld { image_repository := "alpine" }).2 =
        .ok (.id "0a1b2c3d4e5f") ↔
      split_output sampleWorld.container_run_stdout = ["0a1b2c3d4e5f"]) :=
  ⟨rfl, rfl,
    (claim_C9_container_run_id sampleWorld { image_repository := "alpine" }
      rfl rfl).1 "0a1b2c3d4e5f"⟩

/-- C1 counterexample: an archive whose member names are four copies of
`./db/version` passes `_restore_verify_archive`, although the marker path
`./db/WiredTiger` is absent from its member names. -/
theorem claim_C1_counterexample :
    Action._restore_verify_archive "/tmp/backup.tar.gz"
        (.tar ["./db/version", "./db/version", "./db/version", "./db/version"]) =
      .ok () ∧
    "./db/WiredTiger" ∈ Action.BACKUP_ARCHIVE_KEY_FILE_LIST ∧
    "./db/WiredTiger" ∉
      ["./db/version", "./db/version", "./db/version", "./db/version"] :=
  ⟨rfl, by decide, by decide⟩

/-- C1 (amended): verification of an opened tar succeeds exactly when at
least four member names — counted with multiplicity — are marker paths;
containing every marker is sufficient, and for an archive with no repeated
member names success is equivalent to every marker being present. -/
theorem claim_C1_verify_archive (path : String) (members : List String) :
    (Action._restore_verify_archive path (.tar members) = .ok () ↔
      4 ≤ (members.filter
        (fun n => n ∈ Action.BACKUP_ARCHIVE_KEY_FILE_LIST)).length) ∧
    ((∀ m ∈ Action.BACKUP_ARCHIVE_KEY_FILE_LIST, m ∈ members) →
      Action._restore_verify_archive path (.tar members) = .ok ()) ∧
    (members.Nodup →
      (Action._restore_verify_archive path (.tar members) = .ok () ↔
        ∀ m ∈ Action.BACKUP_ARCHIVE_KEY_FILE_LIST, m ∈ members)) := by
  have hlen : Action.BACKUP_ARCHIVE_KEY_FILE_LIST.length = 4 := rfl
  have hmain : Action._restore_verify_archive path (.tar members) = .ok () ↔
      4 ≤ (members.filter
        (fun n => n ∈ Action.BACKUP_ARCHIVE_KEY_FILE_LIST)).length := by
    simp only [Action._restore_verify_archive]
    constructor
    · intro h
      by_contra hnle
      rw [if_pos (by omega)] at h
      cases h
    · intro hle
      rw [if_neg (by omega)]
  have hsuff : (∀ m ∈ Action.BACKUP_ARCHIVE_KEY_FILE_LIST, m ∈ members) →
      4 ≤ (members.filter
        (fun n => n ∈ Action.BACKUP_ARCHIVE_KEY_FILE_LIST)).length := by
    intro hall
    have hsub : Action.BACKUP_ARCHIVE_KEY_FILE_LIST ⊆
        members.filter (fun n => n ∈ Action.BACKUP_ARCHIVE_KEY_FILE_LIST) := by
      intro m hm
      simp only [List.mem_filter, decide_eq_true_eq]
      exact ⟨hall m hm, hm⟩
    have hnodup : Action.BACKUP_ARCHIVE_KEY_FILE_LIST.Nodup := by decide
    have := (hnodup.subperm hsub).length_le
    omega
  refine ⟨hmain, fun hall => hmain.mpr (hsuff hall), fun hnd => ?_⟩
  rw [hmain]
  constructor
  · intro hcount m hm
    by_contra hnm
    have hfsub : members.filter
        (fun n => n ∈ Action.BACKUP_ARCHIVE_KEY_FILE_LIST) ⊆
        Action.BACKUP_ARCHIVE_KEY_FILE_LIST.erase m := by
      intro x hx
      rcases List.mem_filter.mp hx with ⟨hxm, hxl⟩
      have hxl' : x ∈ Action.BACKUP_ARCHIVE_KEY_FILE_LIST :=
        of_decide_eq_true hxl
      have hxne : x ≠ m := fun hxe => hnm (hxe ▸ hxm)
      exact (List.mem_erase_of_ne hxne).mpr hxl'
    have hfnd : (members.filter
        (fun n => n ∈ Action.BACKUP_ARCHIVE_KEY_FILE_LIST)).Nodup :=
      hnd.filter _
    have hle := (hfnd.subperm hfsub).length_le
    have herase : (Action.BACKUP_ARCHIVE_KEY_FILE_LIST.erase m).length =
        Action.BACKUP_ARCHIVE_KEY_FILE_LIST.length - 1 :=
      List.length_erase_of_mem hm
    omega
  · exact hsuff

/-- Witness for C1 (amended): a backup archive carrying exactly the four
markers plus a data file passes verification. -/
theorem claim_C1_verify_archive_witness :
    Action._restore_verify_archive "/tmp/backup.tar.gz"
        (.tar ["./db/version", "./db/WiredTiger", "./firmware.json",
          "./system.properties", "./db/collection-0.wt"]) = .ok () :=
  (claim_C1_verify_archive "/tmp/backup.tar.gz"
    ["./db/version", "./db/WiredTiger", "./firmware.json",
      "./system.properties", "./db/collection-0.wt"]).2.1 (by decide)

/-- C3: whenever archive verification fails, `restore` raises that failure
as a `FatalError` having issued NO runtime call at all (empty trace). -/
theorem claim_C3_restore_read_only_until_verified (w : World)
    (serverPrefix archive_dir archive_name : String)
    (opened : Action.ArchiveOpen) (f : Action.Fatal)
    (hv : Action._restore_verify_archive (archive_dir ++ "/" ++ archive_name)
        opened = .error f) :
    Action.restore w serverPrefix archive_dir archive_name opened =
      ([], .error (.fatal f)) := by
  unfold Action.restore
  simp [hv]

/-- Witness for C3: restoring from an archive holding only three of the four
markers fails fatally with no runtime call, even in a fully healthy world. -/
theorem claim_C3_restore_read_only_until_verified_witness :
    Action._restore_verify_archive ("/tmp" ++ "/" ++ "backup.tar.gz")
        (.tar ["./db/version", "./db/WiredTiger", "./firmware.json"]) =
      .error (.notAControllerBackup ("/tmp" ++ "/" ++ "backup.tar.gz")) ∧
    Action.restore sampleWorld "unifi-network-controller" "/tmp" "backup.tar.gz"
        (.tar ["./db/version", "./db/WiredTiger", "./firmware.json"]) =
      ([], .error (.fatal (.notAControllerBackup
        ("/tmp" ++ "/" ++ "backup.tar.gz")))) :=
  ⟨rfl, claim_C3_restore_read_only_until_verified sampleWorld
    "unifi-network-controller" "/tmp" "backup.tar.gz"
    (.tar ["./db/version", "./db/WiredTiger", "./firmware.json"])
    (.notAControllerBackup ("/tmp" ++ "/" ++ "backup.tar.gz")) rfl⟩

theorem restore_delete_volume_loop_skip (w : World) (v : String) :
    ∀ vols : List (String × VolumeRec), (∀ q ∈ vols, q.1 ≠ v) →
      Action.restore_delete_volume_loop w v vols = ([], .ok ())
  | [], _ => rfl
  | q :: rest, h => by
    rcases q with ⟨name, rec⟩
    have hq : (name == v) = false :=
      beq_eq_false_iff_ne.mpr (h (name, rec) (by simp))
    simp only [Action.restore_delete_volume_loop, hq, Bool.false_eq_true,
      if_false]
    exact restore_delete_volume_loop_skip w v rest
      (fun q hqr => h q (List.mem_cons_of_mem _ hqr))

/-- C8: `_volume_create` issues no runtime call (and succeeds) when the name
is among the existing volumes, and issues exactly the one create call when it
is absent; restore's deletion loop issues no call (and succeeds) when no
volume-listing entry carries the data-volume name. -/
theorem claim_C8_idempotent_volume_ops (w : World) (name v : String)
    (existing : List String) (vols : List (String × VolumeRec)) :
    (name ∈ existing → Action._volume_create w name existing = ([], .ok ())) ∧
    (name ∉ existing → w.cli_found = true →
      (Action._volume_create w name existing).1 = [.volumeCreate name]) ∧
    ((∀ q ∈ vols, q.1 ≠ v) →
      Action.restore_delete_volume_loop w v vols = ([], .ok ())) := by
  refine ⟨fun h => ?_, fun h hcli => ?_, restore_delete_volume_loop_skip w v vols⟩
  · simp [Action._volume_create, h]
  · rcases hc : Docker.volume_create w name with ⟨t, r⟩
    have ht : t = [.volumeCreate name] := by
      unfold Docker.volume_create at hc
      rw [if_pos hcli] at hc
      simpa using (congrArg Prod.fst hc).symm
    cases r <;> simp [Action._volume_create, h, hc, ht]

/-- Witness for C8: on `sampleWorld` with volume name present/absent. -/
theorem claim_C8_idempotent_volume_ops_witness :
    ("unifi-data" ∈ ["unifi-data", "unifi-logs"] →
      Action._volume_create sampleWorld "unifi-data" ["unifi-data", "unifi-logs"] =
        ([], .ok ())) ∧
    ("unifi-data" ∉ (["unifi-logs"] : List String) →
      sampleWorld.cli_found = true →
      (Action._volume_create sampleWorld "unifi-data" ["unifi-logs"]).1 =
        [.volumeCreate "unifi-data"]) ∧
    ((∀ q ∈ [("other-data", VolumeRec.mk "/mnt/other")], q.1 ≠ "unifi-data") →
      Action.restore_delete_volume_loop sampleWorld "unifi-data"
        [("other-data", VolumeRec.mk "/mnt/other")] = ([], .ok ())) ∧
    Action._volume_create sampleWorld "unifi-data" ["unifi-data", "unifi-logs"] =
      ([], .ok ()) ∧
    (Action._volume_create sampleWorld "unifi-data" ["unifi-logs"]).1 =
      [.volumeCreate "unifi-data"] ∧
    Action.restore_delete_volume_loop sampleWorld "unifi-data"
      [("other-data", VolumeRec.mk "/mnt/other")] = ([], .ok ()) := by
  have h1 := claim_C8_idempotent_volume_ops sampleWorld "unifi-data" "unifi-data"
    ["unifi-data", "unifi-logs"] [("other-data", VolumeRec.mk "/mnt/other")]
  have h2 := claim_C8_idempotent_volume_ops sampleWorld "unifi-data" "unifi-data"
    ["unifi-logs"] [("other-data", VolumeRec.mk "/mnt/other")]
  exact ⟨h1.1, h2.2.1, h1.2.2,
    h1.1 (by decide), h2.2.1 (by decide) rfl, h1.2.2 (by decide)⟩

/-- C5: with the container listing readable, `stop_server` fails with the
"not does exist" error iff the derived name is absent from the listing (as a
Python dict: last entry wins), fails with the "not running" error iff the
entry exists with `running = false`, and with the entry running its only
outcomes are success or the wrapped "unable to stop server" FatalError. -/
theorem claim_C5_stop_preconditions (w : World) (serverPrefix : String)
    (hcli : w.cli_found = true) (hcl : w.container_list_ok = true) :
    ((Action.stop_server w serverPrefix).2 =
        .error (.fatal (.containerDoesNotExist
          (Action._container_server_name serverPrefix))) ↔
      dict_get w.containers (Action._container_server_name serverPrefix) =
        none) ∧
    (∀ data,
      dict_get w.containers (Action._container_server_name serverPrefix) =
          some data →
      ((Action.stop_server w serverPrefix).2 =
          .error (.fatal (.containerNotRunning
            (Action._container_server_name serverPrefix))) ↔
        data.running = false)) ∧
    (∀ data,
      dict_get w.containers (Action._container_server_name serverPrefix) =
          some data → data.running = true →
      (Action.stop_server w serverPrefix).2 = .ok () ∨
        (Action.stop_server w serverPrefix).2 =
          .error (.fatal .unableToStopServer)) := by
  rcases hd : dict_get w.containers (Action._container_server_name serverPrefix)
    with _ | data
  · have hres : (Action.stop_server w serverPrefix).2 =
        .error (.fatal (.containerDoesNotExist
          (Action._container_server_name serverPrefix))) := by
      unfold Action.stop_server
      simp [Docker.container_list, hcli, hcl, hd]
    refine ⟨by simp [hres, hd], fun data hdm => ?_, fun data hdm => ?_⟩ <;>
      cases hdm
  · by_cases hr : data.running = true
    · rcases hs : Docker.container_stop w
          (Action._container_server_name serverPrefix) with ⟨t2, r2⟩
      cases r2 with
      | error e =>
        have hres : (Action.stop_server w serverPrefix).2 =
            .error (.fatal .unableToStopServer) := by
          unfold Action.stop_server
          simp [Docker.container_list, hcli, hcl, hd, hr, hs]
        refine ⟨by simp [hres, hd], fun d hdm => ?_,
          fun d hdm hdr => Or.inr hres⟩
        obtain rfl := Option.some.inj hdm
        simp [hres, hr]
      | ok u =>
        have hres : (Action.stop_server w serverPrefix).2 = .ok () := by
          unfold Action.stop_server
          simp [Docker.container_list, hcli, hcl, hd, hr, hs]
        refine ⟨by simp [hres, hd], fun d hdm => ?_,
          fun d hdm hdr => Or.inl hres⟩
        obtain rfl := Option.some.inj hdm
        simp [hres, hr]
    · have hrf : data.running = false := by
        cases hb : data.running
        · rfl
        · exact absurd hb hr
      have hres : (Action.stop_server w serverPrefix).2 =
          .error (.fatal (.containerNotRunning
            (Action._container_server_name serverPrefix))) := by
        unfold Action.stop_server
        simp [Docker.container_list, hcli, hcl, hd, hrf]
      refine ⟨by simp [hres, hd], fun d hdm => ?_, fun d hdm hdr => ?_⟩ <;>
        obtain rfl := Option.some.inj hdm
      · simp [hres, hrf]
      · rw [hdr] at hrf; cases hrf

/-- Witness for C5: with the server container listed and running, stopping
either succeeds or fails only with the wrapped stop error; here it
succeeds. -/
theorem claim_C5_stop_preconditions_witness :
    serverUpWorld.cli_found = true ∧
    serverUpWorld.container_list_ok = true ∧
    dict_get serverUpWorld.containers
        (Action._container_server_name "unifi-network-controller") =
      some upRec ∧
    upRec.running = true ∧
    ((Action.stop_server serverUpWorld "unifi-network-controller").2 =
        .ok () ∨
      (Action.stop_server serverUpWorld "unifi-network-controller").2 =
        .error (.fatal .unableToStopServer)) :=
  ⟨rfl, rfl, rfl, rfl,
    (claim_C5_stop_preconditions serverUpWorld "unifi-network-controller"
      rfl rfl).2.2 upRec rfl rfl⟩

theorem start_server_result_cases (w : World) (image_tag serverPrefix : String)
    (no_host_network : Bool)
    (himg : (Action._image_pull w Action.CONTROLLER_REPOSITORY_NAME
      image_tag).2 = .ok ())
    (hcli : w.cli_found = true) (hcl : w.container_list_ok = true)
    (hc : dict_contains w.containers
      (Action._container_server_name serverPrefix) = false) :
    (Action.start_server w image_tag serverPrefix no_host_network).2 =
        .ok () ∨
    (∃ d, (Action.start_server w image_tag serverPrefix no_host_network).2 =
        .error (.docker d)) ∨
    (∃ v, (Action.start_server w image_tag serverPrefix no_host_network).2 =
        .error (.fatal (.unableToCreateVolume v))) ∨
    (Action.start_server w image_tag serverPrefix no_host_network).2 =
        .error (.fatal .unableToStartServer) := by
  rcases hp : Action._image_pull w Action.CONTROLLER_REPOSITORY_NAME image_tag
    with ⟨t1, r1⟩
  have hr1 : r1 = .ok () := by rw [hp] at himg; exact himg
  subst hr1
  unfold Action.start_server
  simp only [hp, Docker.container_list, hcli, hcl, if_true, hc,
    Bool.false_eq_true, if_false]
  by_cases hvl : w.volume_list_ok = true
  · simp only [Docker.volume_list, hcli, hvl, if_true]
    rcases h4 : Action._volume_create w (Action._volume_data_name serverPrefix)
        (dict_keys w.volumes) with ⟨t4, r4⟩
    cases r4 with
    | error e =>
      have he : e = .fatal (.unableToCreateVolume
          (Action._volume_data_name serverPrefix)) := by
        rcases volume_create_result w (Action._volume_data_name serverPrefix)
            (dict_keys w.volumes) with hv | hv <;> rw [h4] at hv
        · simp at hv
        · simpa using hv
      subst he
      right; right; left
      exact ⟨Action._volume_data_name serverPrefix, by simp⟩
    | ok u =>
      cases u
      rcases h5 : Action._volume_create w
          (Action._volume_logs_name serverPrefix)
          (dict_keys w.volumes) with ⟨t5, r5⟩
      cases r5 with
      | error e =>
        have he : e = .fatal (.unableToCreateVolume
            (Action._volume_logs_name serverPrefix)) := by
          rcases volume_create_result w (Action._volume_logs_name serverPrefix)
              (dict_keys w.volumes) with hv | hv <;> rw [h5] at hv
          · simp at hv
          · simpa using hv
        subst he
        right; right; left
        exact ⟨Action._volume_logs_name serverPrefix, by simp [h4, h5]⟩
      | ok u2 =>
        cases u2
        rcases hrun : Docker.container_run w
            { image_repository := Action.CONTROLLER_REPOSITORY_NAME
              image_tag := image_tag
              detach := true
              name := some (Action._container_server_name serverPrefix)
              network_host := !no_host_network
              publish_list := [(Action.CONTROLLER_PORT_COMMS,
                  Action.CONTROLLER_PORT_COMMS),
                (Action.CONTROLLER_PORT_GUI, Action.CONTROLLER_PORT_GUI)]
              remove_on_exit := true
              volume_list := [(Action._volume_data_name serverPrefix,
                  Action.CONTROLLER_BASE_DIR ++ "/data"),
                (Action._volume_logs_name serverPrefix,
                  Action.CONTROLLER_BASE_DIR ++ "/logs")] } with ⟨t6, r6⟩
        cases r6 with
        | error e => right; right; right; simp [h4, h5, hrun]
        | ok rr => left; simp [h4, h5, hrun]
  · right; left
    exact ⟨.unableToListVolumes, by
      simp [Docker.volume_list, hcli,
        Bool.not_eq_true .. ▸ hvl]⟩

/-- C4: once past the image step and with the container listing readable,
`start_server` fails with the "already exists" error exactly when some
listing entry carries the derived server name, whatever its running flag. -/
theorem claim_C4_start_already_exists (w : World)
    (image_tag serverPrefix : String) (no_host_network : Bool)
    (himg : (Action._image_pull w Action.CONTROLLER_REPOSITORY_NAME
      image_tag).2 = .ok ())
    (hcli : w.cli_found = true) (hcl : w.container_list_ok = true) :
    (Action.start_server w image_tag serverPrefix no_host_network).2 =
        .error (.fatal (.containerAlreadyExists
          (Action._container_server_name serverPrefix))) ↔
      dict_contains w.containers
        (Action._container_server_name serverPrefix) = true := by
  by_cases hc : dict_contains w.containers
      (Action._container_server_name serverPrefix) = true
  · rcases hp : Action._image_pull w Action.CONTROLLER_REPOSITORY_NAME
        image_tag with ⟨t1, r1⟩
    have hr1 : r1 = .ok () := by rw [hp] at himg; exact himg
    subst hr1
    have hres : (Action.start_server w image_tag serverPrefix
        no_host_network).2 = .error (.fatal (.containerAlreadyExists
          (Action._container_server_name serverPrefix))) := by
      unfold Action.start_server
      simp [hp, Docker.container_list, hcli, hcl, hc]
    simp [hres, hc]
  · have hcf : dict_contains w.containers
        (Action._container_server_name serverPrefix) = false := by
      cases hb : dict_contains w.containers
          (Action._container_server_name serverPrefix)
      · rfl
      · exact absurd hb hc
    simp only [hcf, Bool.false_eq_true, iff_false]
    intro hres
    rcases start_server_result_cases w image_tag serverPrefix no_host_network
        himg hcli hcl hcf with h | ⟨d, h⟩ | ⟨v, h⟩ | h <;>
      rw [hres] at h <;> simp at h

/-- Witness for C4: a listed but STOPPED server container still makes
`start_server` fail with "already exists". -/
theorem claim_C4_start_already_exists_witness :
    (Action._image_pull serverExitedWorld Action.CONTROLLER_REPOSITORY_NAME
        "7.1.61").2 = .ok () ∧
    serverExitedWorld.cli_found = true ∧
    serverExitedWorld.container_list_ok = true ∧
    exitedRec.running = false ∧
    (Action.start_server serverExitedWorld "7.1.61" "unifi-network-controller"
        false).2 =
      .error (.fatal (.containerAlreadyExists
        (Action._container_server_name "unifi-network-controller"))) :=
  ⟨rfl, rfl, rfl, rfl,
    (claim_C4_start_already_exists serverExitedWorld "7.1.61"
      "unifi-network-controller" false rfl rfl rfl).mpr rfl⟩

theorem restore_result_cases (w : World)
    (serverPrefix archive_dir archive_name : String)
    (opened : Action.ArchiveOpen)
    (hv : Action._restore_verify_archive (archive_dir ++ "/" ++ archive_name)
      opened = .ok ())
    (hcli : w.cli_found = true) (hcl : w.container_list_ok = true)
    (hnr : w.containers.any (fun p =>
      p.1 == Action._container_server_name serverPrefix && p.2.running) =
      false) :
    (Action.restore w serverPrefix archive_dir archive_name opened).2 =
        .ok () ∨
    (∃ d, (Action.restore w serverPrefix archive_dir archive_name opened).2 =
        .error (.docker d)) ∨
    (Action.restore w serverPrefix archive_dir archive_name opened).2 =
        .error (.fatal (.unableToRemoveDataVolume
          (Action._volume_data_name serverPrefix))) ∨
    (Action.restore w serverPrefix archive_dir archive_name opened).2 =
        .error (.fatal (.unableToPull
          (Action.BACKUP_REPOSITORY_NAME ++ ":" ++ "latest"))) ∨
    (Action.restore w serverPrefix archive_dir archive_name opened).2 =
        .error (.fatal (.unableToCreateVolume
          (Action._volume_data_name serverPrefix))) ∨
    (Action.restore w serverPrefix archive_dir archive_name opened).2 =
        .error (.fatal (.unableToRestoreDataVolume
          (Action._volume_data_name serverPrefix))) := by
  unfold Action.restore
  simp only [hv, Docker.container_list, hcli, hcl, if_true, hnr,
    Bool.false_eq_true, if_false]
  by_cases hvl : w.volume_list_ok = true
  · simp only [Docker.volume_list, hcli, hvl, if_true]
    rcases h3 : Action.restore_delete_volume_loop w
        (Action._volume_data_name serverPrefix) w.volumes with ⟨t3, r3⟩
    cases r3 with
    | error e =>
      have he : e = .fatal (.unableToRemoveDataVolume
          (Action._volume_data_name serverPrefix)) := by
        rcases restore_delete_volume_loop_result w
            (Action._volume_data_name serverPrefix) w.volumes with hl | hl <;>
          rw [h3] at hl
        · simp at hl
        · simpa using hl
      subst he
      right; right; left; simp
    | ok u =>
      cases u
      rcases h4 : Action._image_pull w Action.BACKUP_REPOSITORY_NAME "latest"
        with ⟨t4, r4⟩
      cases r4 with
      | error e =>
        rcases image_pull_result w Action.BACKUP_REPOSITORY_NAME "latest"
          with hl | ⟨d, hl⟩ | hl <;> rw [h4] at hl
        · simp at hl
        · right; left
          refine ⟨d, ?_⟩
          simp at hl
          simp [h3, hl]
        · right; right; right; left
          simp at hl
          simp [h3, hl]
      | ok u2 =>
        cases u2
        rcases h5 : Action._volume_create w
            (Action._volume_data_name serverPrefix) [] with ⟨t5, r5⟩
        cases r5 with
        | error e =>
          have he : e = .fatal (.unableToCreateVolume
              (Action._volume_data_name serverPrefix)) := by
            rcases volume_create_result w
                (Action._volume_data_name serverPrefix) [] with hl | hl <;>
              rw [h5] at hl
            · simp at hl
            · simpa using hl
          subst he
          right; right; right; right; left; simp [h3, h4]
        | ok u3 =>
          cases u3
          rcases h6 : Docker.container_run w
              { image_repository := Action.BACKUP_REPOSITORY_NAME
                bind_list := [(archive_dir, Action.BACKUP_RESTORE_BACKUP_PATH)]
                command_arg_list := ["/bin/sh", "-c",
                  Action._restore_archive_cmd
                    (Action.BACKUP_RESTORE_BACKUP_PATH ++ "/" ++ archive_name)]
                remove_on_exit := true
                volume_list := [(Action._volume_data_name serverPrefix,
                  Action.BACKUP_RESTORE_VOLUME_MOUNT_PATH)] } with ⟨t6, r6⟩
          cases r6 with
          | error e =>
            right; right; right; right; right; simp [h3, h4, h5, h6]
          | ok rr => left; simp [h3, h4, h5, h6]
  · right; left
    refine ⟨.unableToListVolumes, ?_⟩
    have hvlf : w.volume_list_ok = false := by
      cases hb : w.volume_list_ok
      · rfl
      · exact absurd hb hvl
    simp [Docker.volume_list, hcli, hvlf]

/-- C7: after a successful archive verification and with the container
listing readable, `restore` fails with the "currently running" error exactly
when some listing entry carries the derived server name with
`running = true`; a stopped container of that name, or no such container,
does not trigger it. -/
theorem claim_C7_restore_running_block (w : World)
    (serverPrefix archive_dir archive_name : String)
    (opened : Action.ArchiveOpen)
    (hv : Action._restore_verify_archive (archive_dir ++ "/" ++ archive_name)
      opened = .ok ())
    (hcli : w.cli_found = true) (hcl : w.container_list_ok = true) :
    (Action.restore w serverPrefix archive_dir archive_name opened).2 =
        .error (.fatal (.containerRunningForRestore
          (Action._container_server_name serverPrefix))) ↔
      w.containers.any (fun p =>
        p.1 == Action._container_server_name serverPrefix && p.2.running) =
        true := by
  by_cases hr : w.containers.any (fun p =>
      p.1 == Action._container_server_name serverPrefix && p.2.running) = true
  · have hres : (Action.restore w serverPrefix archive_dir archive_name
        opened).2 = .error (.fatal (.containerRunningForRestore
          (Action._container_server_name serverPrefix))) := by
      unfold Action.restore
      simp [hv, Docker.container_list, hcli, hcl, hr]
    simp [hres, hr]
  · have hrf : w.containers.any (fun p =>
        p.1 == Action._container_server_name serverPrefix && p.2.running) =
        false := by
      cases hb : w.containers.any (fun p =>
          p.1 == Action._container_server_name serverPrefix && p.2.running)
      · rfl
      · exact absurd hb hr
    simp only [hrf, Bool.false_eq_true, iff_false]
    intro hres
    rcases restore_result_cases w serverPrefix archive_dir archive_name opened
        hv hcli hcl hrf with h | ⟨d, h⟩ | h | h | h | h <;>
      rw [hres] at h <;> simp at h

/-- Witness for C7: a valid four-marker archive plus a RUNNING server
container makes `restore` fail with the "currently running" error. -/
theorem claim_C7_restore_running_block_witness :
    Action._restore_verify_archive ("/tmp" ++ "/" ++ "backup.tar.gz")
        (.tar ["./db/version", "./db/WiredTiger", "./firmware.json",
          "./system.properties"]) = .ok () ∧
    serverUpWorld.cli_found = true ∧
    serverUpWorld.container_list_ok = true ∧
    (Action.restore serverUpWorld "unifi-network-controller" "/tmp"
        "backup.tar.gz"
        (.tar ["./db/version", "./db/WiredTiger", "./firmware.json",
          "./system.properties"])).2 =
      .error (.fatal (.containerRunningForRestore
        (Action._container_server_name "unifi-network-controller"))) :=
  ⟨rfl, rfl, rfl,
    (claim_C7_restore_running_block serverUpWorld "unifi-network-controller"
      "/tmp" "backup.tar.gz"
      (.tar ["./db/version", "./db/WiredTiger", "./firmware.json",
        "./system.properties"]) rfl rfl rfl).mpr rfl⟩

theorem stop_server_no_docker (w : World) (serverPrefix : String)
    (hcli : w.cli_found = true) (hcl : w.container_list_ok = true)
    (d : DockerErr) :
    (Action.stop_server w serverPrefix).2 ≠ .error (.docker d) := by
  intro hres
  unfold Action.stop_server at hres
  simp only [Docker.container_list, hcli, hcl, if_true] at hres
  rcases hd : dict_get w.containers
      (Action._container_server_name serverPrefix) with _ | data <;>
    simp only [hd] at hres
  · simp at hres
  · by_cases hr : data.running = true
    · rcases hs : Docker.container_stop w
          (Action._container_server_name serverPrefix) with ⟨t2, r2⟩
      simp only [hr, Bool.not_true, Bool.false_eq_true, if_false, hs]
        at hres
      cases r2 <;> simp at hres
    · have hrf : data.running = false := by
        cases hb : data.running
        · rfl
        · exact absurd hb hr
      simp only [hrf, Bool.not_false, if_true] at hres
      simp at hres

theorem start_server_no_docker (w : World) (image_tag serverPrefix : String)
    (no_host_network : Bool) (hcli : w.cli_found = true)
    (hil : w.image_list_ok = true) (hcl : w.container_list_ok = true)
    (hvl : w.volume_list_ok = true) (d : DockerErr) :
    (Action.start_server w image_tag serverPrefix no_host_network).2 ≠
      .error (.docker d) := by
  intro hres
  rcases hp : Action._image_pull w Action.CONTROLLER_REPOSITORY_NAME image_tag
    with ⟨t1, r1⟩
  rcases image_pull_result_list_ok w Action.CONTROLLER_REPOSITORY_NAME
      image_tag hcli hil with h | h
  · have hr1 : r1 = .ok () := by rw [hp] at h; exact h
    subst hr1
    unfold Action.start_server at hres
    simp only [hp, Docker.container_list, hcli, hcl, if_true] at hres
    by_cases hc : dict_contains w.containers
        (Action._container_server_name serverPrefix) = true
    · simp only [hc, if_true] at hres
      simp at hres
    · have hcf : dict_contains w.containers
          (Action._container_server_name serverPrefix) = false := by
        cases hb : dict_contains w.containers
            (Action._container_server_name serverPrefix)
        · rfl
        · exact absurd hb hc
      simp only [hcf, Bool.false_eq_true, if_false, Docker.volume_list, hcli,
        hvl, if_true] at hres
      rcases h4 : Action._volume_create w
          (Action._volume_data_name serverPrefix) (dict_keys w.volumes)
        with ⟨t4, r4⟩
      simp only [h4] at hres
      rcases volume_create_result w (Action._volume_data_name serverPrefix)
          (dict_keys w.volumes) with hv | hv <;> rw [h4] at hv <;>
        (try simp at hv)
      · have hr4 : r4 = .ok () := by exact hv
        subst hr4
        rcases h5 : Action._volume_create w
            (Action._volume_logs_name serverPrefix) (dict_keys w.volumes)
          with ⟨t5, r5⟩
        simp only [h5] at hres
        rcases volume_create_result w (Action._volume_logs_name serverPrefix)
            (dict_keys w.volumes) with hv5 | hv5 <;> rw [h5] at hv5 <;>
          (try simp at hv5)
        · have hr5 : r5 = .ok () := by exact hv5
          subst hr5
          rcases hrun : Docker.container_run w
              { image_repository := Action.CONTROLLER_REPOSITORY_NAME
                image_tag := image_tag
                detach := true
                name := some (Action._container_server_name serverPrefix)
                network_host := !no_host_network
                publish_list := [(Action.CONTROLLER_PORT_COMMS,
                    Action.CONTROLLER_PORT_COMMS),
                  (Action.CONTROLLER_PORT_GUI, Action.CONTROLLER_PORT_GUI)]
                remove_on_exit := true
                volume_list := [(Action._volume_data_name serverPrefix,
                    Action.CONTROLLER_BASE_DIR ++ "/data"),
                  (Action._volume_logs_name serverPrefix,
                    Action.CONTROLLER_BASE_DIR ++ "/logs")] } with ⟨t6, r6⟩
          simp only [hrun] at hres
          cases r6 <;> simp at hres
        · subst hv5
          simp at hres
      · subst hv
        simp at hres
  · have hr1 : r1 = .error (.fatal (.unableToPull
        (Action.CONTROLLER_REPOSITORY_NAME ++ ":" ++ image_tag))) := by
      rw [hp] at h; exact h
    subst hr1
    unfold Action.start_server at hres
    simp only [hp] at hres
    simp at hres

theorem backup_no_docker (w : World)
    (serverPrefix archive_dir archive_name : String)
    (hcli : w.cli_found = true) (hvl : w.volume_list_ok = true)
    (hil : w.image_list_ok = true) (d : DockerErr) :
    (Action.backup w serverPrefix archive_dir archive_name).2 ≠
      .error (.docker d) := by
  intro hres
  unfold Action.backup at hres
  simp only [Docker.volume_list, hcli, hvl, if_true] at hres
  by_cases hc : dict_contains w.volumes
      (Action._volume_data_name serverPrefix) = true
  · simp only [hc, Bool.not_true, Bool.false_eq_true, if_false] at hres
    rcases hp : Action._image_pull w Action.BACKUP_REPOSITORY_NAME "latest"
      with ⟨t2, r2⟩
    rcases image_pull_result_list_ok w Action.BACKUP_REPOSITORY_NAME "latest"
        hcli hil with h | h
    · have hr2 : r2 = .ok () := by rw [hp] at h; exact h
      subst hr2
      simp only [hp] at hres
      rcases hrun : Docker.container_run w
          { image_repository := Action.BACKUP_REPOSITORY_NAME
            bind_list := [(archive_dir, Action.BACKUP_RESTORE_BACKUP_PATH)]
            command_arg_list := ["/bin/sh", "-c",
              Action._backup_archive_cmd w.uid w.gid
                (Action.BACKUP_RESTORE_BACKUP_PATH ++ "/" ++ archive_name)]
            remove_on_exit := true
            volume_list := [(Action._volume_data_name serverPrefix,
              Action.BACKUP_RESTORE_VOLUME_MOUNT_PATH)] } with ⟨t3, r3⟩
      simp only [hrun] at hres
      cases r3 <;> simp at hres
    · have hr2 : r2 = .error (.fatal (.unableToPull
          (Action.BACKUP_REPOSITORY_NAME ++ ":" ++ "latest"))) := by
        rw [hp] at h; exact h
      subst hr2
      simp only [hp] at hres
      simp at hres
  · have hcf : dict_contains w.volumes
        (Action._volume_data_name serverPrefix) = false := by
      cases hb : dict_contains w.volumes
          (Action._volume_data_name serverPrefix)
      · rfl
      · exact absurd hb hc
    simp only [hcf, Bool.not_false, if_true] at hres
    simp at hres

theorem restore_no_docker (w : World)
    (serverPrefix archive_dir archive_name : String)
    (opened : Action.ArchiveOpen) (hcli : w.cli_found = true)
    (hil : w.image_list_ok = true) (hcl : w.container_list_ok = true)
    (hvl : w.volume_list_ok = true) (d : DockerErr) :
    (Action.restore w serverPrefix archive_dir archive_name opened).2 ≠
      .error (.docker d) := by
  intro hres
  unfold Action.restore at hres
  rcases hvr : Action._restore_verify_archive
      (archive_dir ++ "/" ++ archive_name) opened with f | u <;>
    simp only [hvr] at hres
  · simp at hres
  · cases u
    simp only [Docker.container_list, hcli, hcl, if_true] at hres
    by_cases hr : w.containers.any (fun p =>
        p.1 == Action._container_server_name serverPrefix && p.2.running) =
        true
    · simp only [hr, if_true] at hres
      simp at hres
    · have hrf : w.containers.any (fun p =>
          p.1 == Action._container_server_name serverPrefix && p.2.running) =
          false := by
        cases hb : w.containers.any (fun p =>
            p.1 == Action._container_server_name serverPrefix && p.2.running)
        · rfl
        · exact absurd hb hr
      simp only [hrf, Bool.false_eq_true, if_false, Docker.volume_list, hcli,
        hvl, if_true] at hres
      rcases h3 : Action.restore_delete_volume_loop w
          (Action._volume_data_name serverPrefix) w.volumes with ⟨t3, r3⟩
      simp only [h3] at hres
      rcases restore_delete_volume_loop_result w
          (Action._volume_data_name serverPrefix) w.volumes with hl | hl <;>
        rw [h3] at hl <;> (try simp at hl)
      · have hr3 : r3 = .ok () := by exact hl
        subst hr3
        rcases hp : Action._image_pull w Action.BACKUP_REPOSITORY_NAME
            "latest" with ⟨t4, r4⟩
        rcases image_pull_result_list_ok w Action.BACKUP_REPOSITORY_NAME
            "latest" hcli hil with h | h
        · have hr4 : r4 = .ok () := by rw [hp] at h; exact h
          subst hr4
          simp only [hp] at hres
          rcases h5 : Action._volume_create w
              (Action._volume_data_name serverPrefix) [] with ⟨t5, r5⟩
          simp only [h5] at hres
          rcases volume_create_result w (Action._volume_data_name serverPrefix)
              [] with hv | hv <;> rw [h5] at hv <;> (try simp at hv)
          · have hr5 : r5 = .ok () := by exact hv
            subst hr5
            rcases hrun : Docker.container_run w
                { image_repository := Action.BACKUP_REPOSITORY_NAME
                  bind_list :=
                    [(archive_dir, Action.BACKUP_RESTORE_BACKUP_PATH)]
                  command_arg_list := ["/bin/sh", "-c",
                    Action._restore_archive_cmd
                      (Action.BACKUP_RESTORE_BACKUP_PATH ++ "/" ++
                        archive_name)]
                  remove_on_exit := true
                  volume_list := [(Action._volume_data_name serverPrefix,
                    Action.BACKUP_RESTORE_VOLUME_MOUNT_PATH)] } with ⟨t6, r6⟩
            simp only [hrun] at hres
            cases r6 <;> simp at hres
          · subst hv
            simp at hres
        · have hr4 : r4 = .error (.fatal (.unableToPull
              (Action.BACKUP_REPOSITORY_NAME ++ ":" ++ "latest"))) := by
            rw [hp] at h; exact h
          subst hr4
          simp only [hp] at hres
          simp at hres
      · have hr3 : r3 = .error (.fatal (.unableToRemoveDataVolume
            (Action._volume_data_name serverPrefix))) := by exact hl
        subst hr3
        simp at hres

/-- C2 counterexample: with the CLI present but the `docker ps --all`
subprocess exiting non-zero, `stop_server`'s outcome is an ESCAPED
DockerError (no except clause covers `docker.container_list`), not a
FatalError — contradicting the claim that every runtime-call error is
caught and re-raised as a FatalError. -/
theorem claim_C2_counterexample :
    (Action.stop_server listFailWorld "unifi-network-controller").2 =
      .error (.docker .unableToListContainers) ∧
    listFailWorld.cli_found = true :=
  ⟨rfl, rfl⟩

/-- C2 (amended): the lifecycle operations catch and wrap the DockerErrors
of the mutating calls (pull, volume create/delete, container run/stop), but
NOT those of the three listing calls; hence whenever the CLI is found and
the three listing subprocesses succeed, no DockerError escapes any
lifecycle operation. -/
theorem claim_C2_wrapped_errors (w : World)
    (image_tag serverPrefix archive_dir archive_name : String)
    (no_host_network : Bool) (opened : Action.ArchiveOpen)
    (hcli : w.cli_found = true) (hil : w.image_list_ok = true)
    (hcl : w.container_list_ok = true) (hvl : w.volume_list_ok = true) :
    (∀ d, (Action.start_server w image_tag serverPrefix no_host_network).2 ≠
      .error (.docker d)) ∧
    (∀ d, (Action.stop_server w serverPrefix).2 ≠ .error (.docker d)) ∧
    (∀ d, (Action.backup w serverPrefix archive_dir archive_name).2 ≠
      .error (.docker d)) ∧
    (∀ d, (Action.restore w serverPrefix archive_dir archive_name opened).2 ≠
      .error (.docker d)) :=
  ⟨fun d => start_server_no_docker w image_tag serverPrefix no_host_network
      hcli hil hcl hvl d,
    fun d => stop_server_no_docker w serverPrefix hcli hcl d,
    fun d => backup_no_docker w serverPrefix archive_dir archive_name hcli
      hvl hil d,
    fun d => restore_no_docker w serverPrefix archive_dir archive_name opened
      hcli hil hcl hvl d⟩

/-- Witness for C2 (amended) on the healthy `sampleWorld`. -/
theorem claim_C2_wrapped_errors_witness :
    sampleWorld.cli_found = true ∧ sampleWorld.image_list_ok = true ∧
    sampleWorld.container_list_ok = true ∧
    sampleWorld.volume_list_ok = true ∧
    (Action.stop_server sampleWorld "unifi-network-controller").2 ≠
      .error (.docker .unableToListContainers) :=
  ⟨rfl, rfl, rfl, rfl,
    (claim_C2_wrapped_errors sampleWorld "7.1.61" "unifi-network-controller"
      "/tmp" "backup.tar.gz" false (.tar []) rfl rfl rfl rfl).2.1
      .unableToListContainers⟩

theorem volume_list_trace (w : World) :
    ∀ x ∈ (Docker.volume_list w).1, x = DockerCall.volumeList := by
  unfold Docker.volume_list
  by_cases hcli : w.cli_found = true <;> simp [hcli]

theorem container_run_trace (w : World) (spec : RunSpec) :
    ∀ x ∈ (Docker.container_run w spec).1,
      x = DockerCall.containerRun spec := by
  unfold Docker.container_run
  by_cases hcli : w.cli_found = true <;> simp [hcli]

theorem container_run_ok_result (w : World) (spec : RunSpec)
    (hcli : w.cli_found = true) (hok : w.container_run_ok = true) :
    ∃ rr, (Docker.container_run w spec).2 = .ok rr := by
  simp only [Docker.container_run, hcli, hok, if_true]
  rcases split_output w.container_run_stdout with _ | ⟨a, _ | ⟨b, rest⟩⟩ <;>
    simp

theorem backup_trace_prop (w : World)
    (serverPrefix archive_dir archive_name : String) (P : DockerCall → Prop)
    (hPvl : P DockerCall.volumeList) (hPil : P DockerCall.imageList)
    (hPip : P (DockerCall.imagePull Action.BACKUP_REPOSITORY_NAME "latest"))
    (hPrun : ∀ spec : RunSpec,
      spec.volume_list = [(Action._volume_data_name serverPrefix,
        Action.BACKUP_RESTORE_VOLUME_MOUNT_PATH)] →
      P (DockerCall.containerRun spec)) :
    ∀ c ∈ (Action.backup w serverPrefix archive_dir archive_name).1, P c := by
  intro c hc
  unfold Action.backup at hc
  rcases hvl : Docker.volume_list w with ⟨t1, r1⟩
  have ht1 := volume_list_trace w
  rw [hvl] at ht1
  simp only [hvl] at hc
  cases r1 with
  | error e =>
    have := ht1 c hc
    subst this; exact hPvl
  | ok volumes =>
    by_cases hdc : dict_contains volumes
        (Action._volume_data_name serverPrefix) = true
    · simp only [hdc, Bool.not_true, Bool.false_eq_true, if_false] at hc
      rcases hp : Action._image_pull w Action.BACKUP_REPOSITORY_NAME "latest"
        with ⟨t2, r2⟩
      have ht2 := image_pull_trace w Action.BACKUP_REPOSITORY_NAME "latest"
      rw [hp] at ht2
      simp only [hp] at hc
      cases r2 with
      | error e =>
        rcases List.mem_append.mp hc with h | h
        · have := ht1 c h; subst this; exact hPvl
        · rcases ht2 c h with h2 | h2 <;> subst h2
          · exact hPil
          · exact hPip
      | ok u =>
        rcases hrun : Docker.container_run w
            { image_repository := Action.BACKUP_REPOSITORY_NAME
              bind_list := [(archive_dir, Action.BACKUP_RESTORE_BACKUP_PATH)]
              command_arg_list := ["/bin/sh", "-c",
                Action._backup_archive_cmd w.uid w.gid
                  (Action.BACKUP_RESTORE_BACKUP_PATH ++ "/" ++ archive_name)]
              remove_on_exit := true
              volume_list := [(Action._volume_data_name serverPrefix,
                Action.BACKUP_RESTORE_VOLUME_MOUNT_PATH)] } with ⟨t3, r3⟩
        have ht3 := container_run_trace w
            { image_repository := Action.BACKUP_REPOSITORY_NAME
              bind_list := [(archive_dir, Action.BACKUP_RESTORE_BACKUP_PATH)]
              command_arg_list := ["/bin/sh", "-c",
                Action._backup_archive_cmd w.uid w.gid
                  (Action.BACKUP_RESTORE_BACKUP_PATH ++ "/" ++ archive_name)]
              remove_on_exit := true
              volume_list := [(Action._volume_data_name serverPrefix,
                Action.BACKUP_RESTORE_VOLUME_MOUNT_PATH)] }
        rw [hrun] at ht3
        simp only [hrun] at hc
        cases r3 with
        | error e2 =>
          rcases List.mem_append.mp hc with h | h
          · rcases List.mem_append.mp h with h1 | h1
            · have := ht1 c h1; subst this; exact hPvl
            · rcases ht2 c h1 with h2 | h2 <;> subst h2
              · exact hPil
              · exact hPip
          · have := ht3 c h; subst this; exact hPrun _ rfl
        | ok rr =>
          rcases List.mem_append.mp hc with h | h
          · rcases List.mem_append.mp h with h1 | h1
            · have := ht1 c h1; subst this; exact hPvl
            · rcases ht2 c h1 with h2 | h2 <;> subst h2
              · exact hPil
              · exact hPip
          · have := ht3 c h; subst this; exact hPrun _ rfl
    · have hdcf : dict_contains volumes
          (Action._volume_data_name serverPrefix) = false := by
        cases hb : dict_contains volumes
            (Action._volume_data_name serverPrefix)
        · rfl
        · exact absurd hb hdc
      simp only [hdcf, Bool.not_false, if_true] at hc
      have := ht1 c hc
      subst this; exact hPvl

/-- C6: with the runtime healthy, `backup` fails exactly when the derived
data volume is absent from the volume listing; and unconditionally its
runtime-call trace never contains a container-listing invocation nor any
call referencing the derived logs volume. -/
theorem claim_C6_backup_data_volume_only (w : World)
    (serverPrefix archive_dir archive_name : String) :
    (w.cli_found = true → w.volume_list_ok = true → w.image_list_ok = true →
      w.image_pull_ok = true → w.container_run_ok = true →
      ((∃ e, (Action.backup w serverPrefix archive_dir archive_name).2 =
          .error e) ↔
        dict_contains w.volumes (Action._volume_data_name serverPrefix) =
          false)) ∧
    DockerCall.containerList ∉
      (Action.backup w serverPrefix archive_dir archive_name).1 ∧
    (∀ c ∈ (Action.backup w serverPrefix archive_dir archive_name).1,
      DockerCall.mentions_volume c (Action._volume_logs_name serverPrefix) =
        false) := by
  refine ⟨fun hcli hvl hil hip hcr => ?_, ?_, ?_⟩
  · by_cases hc : dict_contains w.volumes
        (Action._volume_data_name serverPrefix) = true
    · have hok : (Action.backup w serverPrefix archive_dir archive_name).2 =
          .ok () := by
        unfold Action.backup
        simp only [Docker.volume_list, hcli, hvl, if_true, hc, Bool.not_true,
          Bool.false_eq_true, if_false]
        rcases hp : Action._image_pull w Action.BACKUP_REPOSITORY_NAME
            "latest" with ⟨t2, r2⟩
        have hr2 : r2 = .ok () := by
          have := image_pull_result_all_ok w Action.BACKUP_REPOSITORY_NAME
            "latest" hcli hil hip
          rw [hp] at this; exact this
        subst hr2
        simp only [hp]
        rcases hrun : Docker.container_run w
            { image_repository := Action.BACKUP_REPOSITORY_NAME
              bind_list := [(archive_dir, Action.BACKUP_RESTORE_BACKUP_PATH)]
              command_arg_list := ["/bin/sh", "-c",
                Action._backup_archive_cmd w.uid w.gid
                  (Action.BACKUP_RESTORE_BACKUP_PATH ++ "/" ++ archive_name)]
              remove_on_exit := true
              volume_list := [(Action._volume_data_name serverPrefix,
                Action.BACKUP_RESTORE_VOLUME_MOUNT_PATH)] } with ⟨t3, r3⟩
        have hr3 : ∃ rr, r3 = .ok rr := by
          have := container_run_ok_result w
              { image_repository := Action.BACKUP_REPOSITORY_NAME
                bind_list :=
                  [(archive_dir, Action.BACKUP_RESTORE_BACKUP_PATH)]
                command_arg_list := ["/bin/sh", "-c",
                  Action._backup_archive_cmd w.uid w.gid
                    (Action.BACKUP_RESTORE_BACKUP_PATH ++ "/" ++
                      archive_name)]
                remove_on_exit := true
                volume_list := [(Action._volume_data_name serverPrefix,
                  Action.BACKUP_RESTORE_VOLUME_MOUNT_PATH)] } hcli hcr
          rw [hrun] at this; exact this
        rcases hr3 with ⟨rr, hr3⟩
        subst hr3
        simp [hrun]
      simp [hok, hc]
    · have hcf : dict_contains w.volumes
          (Action._volume_data_name serverPrefix) = false := by
        cases hb : dict_contains w.volumes
            (Action._volume_data_name serverPrefix)
        · rfl
        · exact absurd hb hc
      have herr : (Action.backup w serverPrefix archive_dir archive_name).2 =
          .error (.fatal (.dataVolumeDoesNotExist
            (Action._volume_data_name serverPrefix))) := by
        unfold Action.backup
        simp [Docker.volume_list, hcli, hvl, hcf]
      simp only [hcf]
      exact ⟨fun _ => trivial, fun _ => ⟨_, herr⟩⟩
  · intro hmem
    exact backup_trace_prop w serverPrefix archive_dir archive_name
      (fun c => c ≠ DockerCall.containerList) (by simp) (by simp) (by simp)
      (fun spec _ => by simp) DockerCall.containerList hmem rfl
  · refine backup_trace_prop w serverPrefix archive_dir archive_name
      (fun c => DockerCall.mentions_volume c
        (Action._volume_logs_name serverPrefix) = false)
      rfl rfl rfl (fun spec hs => ?_)
    have hne : Action._volume_data_name serverPrefix ≠
        Action._volume_logs_name serverPrefix := by
      unfold Action._volume_data_name Action._volume_logs_name
      exact string_append_ne serverPrefix (by decide)
    simp [DockerCall.mentions_volume, hs, hne]

/-- Witness for C6: backing up with no volumes present fails (the data
volume is absent from the listing). -/
theorem claim_C6_backup_data_volume_only_witness :
    sampleWorld.cli_found = true ∧ sampleWorld.volume_list_ok = true ∧
    sampleWorld.image_list_ok = true ∧ sampleWorld.image_pull_ok = true ∧
    sampleWorld.container_run_ok = true ∧
    ((∃ e, (Action.backup sampleWorld "unifi-network-controller" "/tmp"
        "backup.tar.gz").2 = .error e) ↔
      dict_contains sampleWorld.volumes
        (Action._volume_data_name "unifi-network-controller") = false) :=
  ⟨rfl, rfl, rfl, rfl, rfl,
    (claim_C6_backup_data_volume_only sampleWorld "unifi-network-controller"
      "/tmp" "backup.tar.gz").1 rfl rfl rfl rfl rfl⟩
